import Mathlib

/-!
Verification of the RTL Content Fixer content script (content.js, latest
revision).  The embedding models one DOM element as a record of the fields the
script reads and writes: the two marker attributes `data-rtl-fixer-processed`
and `data-rtl-fixer-styled` (as `Option String`, `none` = attribute absent),
the inline style properties `direction` and `textAlign` (as `String`, `""` =
unset, matching `el.style.x = ''`), the element's text content, and the
environment facts the script consults: node type, skip-selector match,
connectedness, and the computed style.  `computed = none` models
`window.getComputedStyle` throwing (deterministically for a given element,
matching a single-threaded DOM where nothing changes between the two reads
inside `isPotentialCandidate`).
-/

/-- Computed style fields read by the script: `display`, `visibility`,
`direction`. -/
structure ComputedStyle where
  display : String
  visibility : String
  direction : String
deriving DecidableEq, Repr

/-- One DOM element, restricted to what content.js reads and writes. -/
structure Element where
  isElementNode : Bool
  matchesSkip : Bool
  isConnected : Bool
  computed : Option ComputedStyle
  textContent : String
  styleDirection : String
  styleTextAlign : String
  processed : Option String
  styled : Option String
deriving DecidableEq, Repr

/-- One character of `RTL_REGEX = /[؀-ۿݐ-ݿࢠ-ࣿﭐ-﷿ﹰ-﻿]/`.
The regex contains no surrogate halves and no astral code points, so testing
UTF-16 units in JS agrees with testing code points here. -/
def isRTLChar (c : Char) : Bool :=
  (0x0600 ≤ c.toNat && c.toNat ≤ 0x06FF) ||
  (0x0750 ≤ c.toNat && c.toNat ≤ 0x077F) ||
  (0x08A0 ≤ c.toNat && c.toNat ≤ 0x08FF) ||
  (0xFB50 ≤ c.toNat && c.toNat ≤ 0xFDFF) ||
  (0xFE70 ≤ c.toNat && c.toNat ≤ 0xFEFF)

/-- `RTL_REGEX.test(text)`: does the string contain a character in the Arabic
blocks. -/
def containsRTL (s : String) : Bool :=
  s.data.any isRTLChar

/-- The direction read in `isPotentialCandidate`:
`computedStyle ? computedStyle.direction : window.getComputedStyle(element).direction`.
`csOpt` is the local `computedStyle` variable (null if the first read threw);
on null the style is read again from the element. -/
def readDirection (e : Element) (csOpt : Option ComputedStyle) : Option String :=
  match csOpt with
  | some cs => some cs.direction
  | none => Option.map ComputedStyle.direction e.computed

/-- The text-content check and the direction check of `isPotentialCandidate`
(content.js lines 42-43), returning the result together with the element. -/
def textAndDirectionCheck (e : Element) (csOpt : Option ComputedStyle) : Bool × Element :=
  if e.textContent = "" || !containsRTL e.textContent then
    (false, { e with processed := some "no-rtl" })
  else
    match readDirection e csOpt with
    | none => (false, { e with processed := some "style-error" })
    | some d =>
      if d = "rtl" then (false, { e with processed := some "already-rtl" })
      else (true, e)

/-- `isPotentialCandidate(element)` (content.js lines 38-45).  Returns the
boolean result and the element with any marker the filter wrote. -/
def isPotentialCandidate (e : Element) : Bool × Element :=
  if !e.isElementNode || e.matchesSkip || !e.isConnected then (false, e)
  else if e.processed.isSome || e.styled.isSome then (false, e)
  else
    match e.computed with
    | some cs =>
      if cs.display = "none" || cs.visibility = "hidden" then
        (false, { e with processed := some "hidden" })
      else textAndDirectionCheck e (some cs)
    | none => textAndDirectionCheck e none

/-- `applyRtlStyle(element)` (content.js lines 46-48). -/
def applyRtlStyle (e : Element) : Element :=
  { e with styleDirection := "rtl", styleTextAlign := "right",
           styled := some "true", processed := none }

/-- The per-element body of `revertAllStyles` (content.js lines 127-129). -/
def revertFix (e : Element) : Element :=
  { e with styleDirection := "", styleTextAlign := "",
           styled := none, processed := none }

/-- The per-element body of `checkAndFixNode` (content.js line 52), after the
structural guard has passed:  run the filter; on accept apply the style; on
reject write the generic `checked-subtree` marker when both attributes are
still absent.  `isPotentialCandidate` is pure here, so calling it several
times equals the single mutating call in the source. -/
def checkAndFixElem (e : Element) : Element :=
  if (isPotentialCandidate e).1 then applyRtlStyle (isPotentialCandidate e).2
  else if (isPotentialCandidate e).2.processed.isNone && (isPotentialCandidate e).2.styled.isNone then
    { (isPotentialCandidate e).2 with processed := some "checked-subtree" }
  else (isPotentialCandidate e).2

/-- `checkAndFixNode` restricted to one element node:  the structural guard of
line 51 followed by the per-element body (children recursion is modelled by
`checkAndFixTree`). -/
def checkAndFixNodeElem (e : Element) : Element :=
  if !e.isElementNode || e.matchesSkip || !e.isConnected then e
  else checkAndFixElem e

/-- The characterData branch of `handleMutations` (content.js lines 96-99) as
it acts on the mutated text node's parent element:  remove the `processed`
attribute, then run `checkAndFixNode` on the parent.  The text-node entry of
`checkAndFixNode` (line 50) performs exactly the same two steps on the
parent. -/
def handleCharDataElem (e : Element) : Element :=
  checkAndFixNodeElem { e with processed := none }

/-- The per-candidate body of `runScan` (content.js lines 68-77). -/
def scanStep (e : Element) : Element :=
  if (isPotentialCandidate e).1 then applyRtlStyle (isPotentialCandidate e).2
  else if (isPotentialCandidate e).2.processed.isNone && (isPotentialCandidate e).2.styled.isNone then
    { (isPotentialCandidate e).2 with processed := some "scan-checked" }
  else (isPotentialCandidate e).2

/-- `currentHostname && excludedSites.includes(currentHostname)`; a missing
hostname (null, or the falsy empty string) is modelled as `none`. -/
def isExcludedHere (host : Option String) (ex : List String) : Bool :=
  match host with
  | some h => ex.contains h
  | none => false

/-- `runScan` (content.js lines 58-79) over the list of elements matched by
the TARGET_TAGS selector query, with its activation guard. -/
def runScan (en : Bool) (ex : List String) (host : Option String)
    (candidates : List Element) : List Element :=
  if !en || isExcludedHere host ex then candidates
  else candidates.map scanStep

/-- Marker-exclusivity: the two marker attributes are never present
together. -/
def markerInvB (e : Element) : Bool :=
  !(e.processed.isSome && e.styled.isSome)

mutual

/-- An element subtree: an element plus its `children` HTMLCollection. -/
inductive DomTree where
  | node (e : Element) (children : DomForest)

/-- A list of element subtrees. -/
inductive DomForest where
  | nil
  | cons (t : DomTree) (rest : DomForest)

end

mutual

/-- `checkAndFixNode` on a whole element subtree (content.js lines 49-54):
guard on the root, process it, then recurse into every child element. -/
def checkAndFixTree : DomTree → DomTree
  | .node e cs =>
    if !e.isElementNode || e.matchesSkip || !e.isConnected then .node e cs
    else .node (checkAndFixElem e) (checkAndFixForest cs)

/-- `checkAndFixNode` mapped over a child list. -/
def checkAndFixForest : DomForest → DomForest
  | .nil => .nil
  | .cons t ts => .cons (checkAndFixTree t) (checkAndFixForest ts)

end

mutual

/-- Marker-exclusivity for every element of a subtree. -/
def treeInvB : DomTree → Bool
  | .node e cs => markerInvB e && forestInvB cs

/-- Marker-exclusivity for every element of a forest. -/
def forestInvB : DomForest → Bool
  | .nil => true
  | .cons t ts => treeInvB t && forestInvB ts

end

/-- Outcome of one invocation of `startObserver` (content.js lines 108-115). -/
inductive StartOutcome where
  | noop
  | retryScheduled
  | started
  | failed
deriving DecidableEq, Repr

/-- One invocation of `startObserver`:  the guard
`observer || !isEnabled || excluded` returns silently; a missing `document.body`
schedules a retry in 100 ms; otherwise `observer.observe` either succeeds
(`observerActive = true`) or throws (observer reset to null).  The second
component is the `observer` variable after the call (`true` = non-null). -/
def startObserverStep (observer isEnabled excluded bodyAvailable observeSucceeds : Bool) :
    StartOutcome × Bool :=
  if observer || !isEnabled || excluded then (.noop, observer)
  else if !bodyAvailable then (.retryScheduled, observer)
  else if observeSucceeds then (.started, true)
  else (.failed, false)

/-- The `startObserver` retry chain:  invocation `n + 1` happens only if
invocation `n` scheduled a retry (`setTimeout(startObserver, 100)`).
`bodyAt k` tells whether `document.body` exists at the k-th invocation;
`isEnabled`/`excluded` are held fixed, modelling a page whose activation state
does not change while the retries run. -/
def startLoop (isEnabled excluded : Bool) (bodyAt : Nat → Bool) (observeSucceeds : Bool) :
    Nat → StartOutcome × Bool
  | 0 => startObserverStep false isEnabled excluded (bodyAt 0) observeSucceeds
  | n + 1 =>
    let prev := startLoop isEnabled excluded bodyAt observeSucceeds n
    if prev.1 = StartOutcome.retryScheduled then
      startObserverStep prev.2 isEnabled excluded (bodyAt (n + 1)) observeSucceeds
    else prev

/-- The response of one `browser.runtime.sendMessage({action: 'getSettings'})`
attempt, as far as `getSettingsWithRetry` inspects it.  `none` models a thrown
error or a falsy response; for a truthy object the two recorded facts are
whether `typeof settings.isEnabled !== 'undefined'` and whether
`Array.isArray(settings.excludedSites)`. -/
structure RawSettings where
  hasIsEnabled : Bool
  isEnabled : Bool
  excludedIsArray : Bool
  excludedSites : List String
deriving DecidableEq, Repr

/-- The validity check of content.js line 138. -/
def validSettings : Option RawSettings → Bool
  | none => false
  | some r => r.hasIsEnabled && r.excludedIsArray

/-- The loop body of `getSettingsWithRetry` (content.js lines 134-152), with
`responses n` the outcome of the n-th `sendMessage`.  Returns the final result
together with the list of backoff delays awaited
(`initialDelay * Math.pow(4, attempt - 1)`).  On the last attempt both the
invalid-response path (whose `throw` is caught by the surrounding `catch`) and
the error path return null with no further delay. -/
def getSettingsFrom (responses : Nat → Option RawSettings) (initialDelay : Nat) :
    Nat → Nat → Option RawSettings × List Nat
  | _, 0 => (none, [])
  | attempt, fuel + 1 =>
    if validSettings (responses attempt) then (responses attempt, [])
    else if fuel = 0 then (none, [])
    else
      let rest := getSettingsFrom responses initialDelay (attempt + 1) fuel
      (rest.1, initialDelay * 4 ^ (attempt - 1) :: rest.2)

/-- `getSettingsWithRetry()` with its default arguments
`maxRetries = 5, initialDelay = 200`. -/
def getSettingsWithRetry (responses : Nat → Option RawSettings) :
    Option RawSettings × List Nat :=
  getSettingsFrom responses 200 1 5

/-- Side effects the initializer and the message listener can request. -/
inductive FxAction where
  | runScan
  | startObserver
  | stopObserver
  | revertAll
  | scheduleInitialScan
  | scheduleSecondScan
deriving DecidableEq, Repr

/-- Outcome of `initialize`: the state of the globals it sets and the actions
it performs. -/
structure InitResult where
  isEnabled : Bool
  excludedSites : List String
  actions : List FxAction
deriving DecidableEq, Repr

/-- `initialize()` (content.js lines 157-211; source name `initialize`, a Lean
keyword).  On a settings failure the globals keep their initial values
(`isEnabled = false`, `excludedSites = []`) and only `stopObserver` runs; on
success the activation check decides between scheduling the two scans plus
`startObserver`, and `stopObserver`. -/
def initializeContent (responses : Nat → Option RawSettings) (host : Option String) :
    InitResult :=
  match (getSettingsWithRetry responses).1 with
  | some r =>
    if r.isEnabled && host.isSome && !(isExcludedHere host r.excludedSites) then
      { isEnabled := r.isEnabled, excludedSites := r.excludedSites,
        actions := [FxAction.scheduleInitialScan, FxAction.scheduleSecondScan, FxAction.startObserver] }
    else
      { isEnabled := r.isEnabled, excludedSites := r.excludedSites,
        actions := [FxAction.stopObserver] }
  | none => { isEnabled := false, excludedSites := [], actions := [FxAction.stopObserver] }

/-- The content script's global state as consulted by the `updateState`
listener. -/
structure ContentState where
  isEnabled : Bool
  excludedSites : List String
  currentHostname : Option String
  observerActive : Bool
deriving DecidableEq, Repr

/-- An `updateState` payload: partial update, only present fields apply. -/
structure UpdatePayload where
  isEnabled : Option Bool
  excludedSites : Option (List String)
deriving DecidableEq, Repr

/-- `isEnabled && currentHostname && !excludedSites.includes(currentHostname)`
(content.js line 222). -/
def shouldBeActive (s : ContentState) : Bool :=
  s.isEnabled &&
    (match s.currentHostname with
     | some h => !(s.excludedSites.contains h)
     | none => false)

/-- The `updateState` branch of the message listener in the latest revision
(content.js lines 214-229).  `JSON.stringify` inequality on two string arrays
is list inequality.  Returns the new state and the actions taken;
branch one runs `runScan` (only if `document.body` exists) then
`startObserver`. -/
def applyUpdate (s : ContentState) (p : UpdatePayload) (bodyAvailable : Bool) :
    ContentState × List FxAction :=
  let ch1 : Bool := match p.isEnabled with
    | some b => decide (s.isEnabled ≠ b)
    | none => false
  let ch2 : Bool := match p.excludedSites with
    | some l => decide (s.excludedSites ≠ l)
    | none => false
  let s2 : ContentState :=
    { s with
      isEnabled := match p.isEnabled with | some b => b | none => s.isEnabled,
      excludedSites := match p.excludedSites with | some l => l | none => s.excludedSites }
  if ch1 || ch2 then
    if shouldBeActive s2 && !s2.observerActive then
      (s2, (if bodyAvailable then [FxAction.runScan] else []) ++ [FxAction.startObserver])
    else if !shouldBeActive s2 && s2.observerActive then
      ({ s2 with observerActive := false }, [FxAction.stopObserver, FxAction.revertAll])
    else (s2, [])
  else (s2, [])

/-- `isEnabled && !excludedSites.includes(currentHostname)` of the earlier
revision (part_000 line 322), which does not test hostname truthiness. -/
def shouldBeActiveV0 (s : ContentState) : Bool :=
  s.isEnabled && !(s.excludedSites.contains (s.currentHostname.getD ""))

/-- The `updateState` branch of the earliest revision (part_000 lines
305-346).  Its third branch (already active and staying active) forces
`revertAllStyles()` then `initialScan()` — which itself ends in
`startObserver()` — whenever the payload carries an exclusion list that does
not contain the current hostname.  Its deactivation branch only stops the
observer (the revert call is commented out in that revision). -/
def applyUpdateV0 (s : ContentState) (p : UpdatePayload) : ContentState × List FxAction :=
  let ch1 : Bool := match p.isEnabled with
    | some b => decide (s.isEnabled ≠ b)
    | none => false
  let ch2 : Bool := match p.excludedSites with
    | some l => decide (s.excludedSites ≠ l)
    | none => false
  let s2 : ContentState :=
    { s with
      isEnabled := match p.isEnabled with | some b => b | none => s.isEnabled,
      excludedSites := match p.excludedSites with | some l => l | none => s.excludedSites }
  if ch1 || ch2 then
    if shouldBeActiveV0 s2 && !s2.observerActive then
      (s2, [FxAction.runScan, FxAction.startObserver])
    else if !shouldBeActiveV0 s2 && s2.observerActive then
      ({ s2 with observerActive := false }, [FxAction.stopObserver])
    else if shouldBeActiveV0 s2 && s2.observerActive then
      match p.excludedSites with
      | some l =>
        if !(l.contains (s2.currentHostname.getD "")) then
          (s2, [FxAction.revertAll, FxAction.runScan, FxAction.startObserver])
        else (s2, [])
      | none => (s2, [])
    else (s2, [])
  else (s2, [])

/-- A visible, connected paragraph-like element with Persian text, default
left-to-right rendering, no inline overrides and no markers. -/
def acceptedElem : Element :=
  { isElementNode := true, matchesSkip := false, isConnected := true,
    computed := some { display := "block", visibility := "visible", direction := "ltr" },
    textContent := "سلام", styleDirection := "", styleTextAlign := "",
    processed := none, styled := none }

/-- Like `acceptedElem` but carrying a pre-existing inline
`style="direction: ltr; text-align: left"`. -/
def elemWithInlineLtr : Element :=
  { isElementNode := true, matchesSkip := false, isConnected := true,
    computed := some { display := "block", visibility := "visible", direction := "ltr" },
    textContent := "سلام", styleDirection := "ltr", styleTextAlign := "left",
    processed := none, styled := none }

/-- An element previously styled by the fixer. -/
def styledElem : Element :=
  { isElementNode := true, matchesSkip := false, isConnected := true,
    computed := some { display := "block", visibility := "visible", direction := "rtl" },
    textContent := "سلام", styleDirection := "rtl", styleTextAlign := "right",
    processed := none, styled := some "true" }

/-- A fresh element on which `getComputedStyle` throws and whose text contains
no right-to-left character. -/
def throwingStyleElem : Element :=
  { isElementNode := true, matchesSkip := false, isConnected := true,
    computed := none, textContent := "hello", styleDirection := "", styleTextAlign := "",
    processed := none, styled := none }

theorem tdc_frame (e : Element) (cs : Option ComputedStyle) :
    (textAndDirectionCheck e cs).2.styled = e.styled ∧
    (textAndDirectionCheck e cs).2.styleDirection = e.styleDirection ∧
    (textAndDirectionCheck e cs).2.styleTextAlign = e.styleTextAlign := by
  unfold textAndDirectionCheck
  split
  · exact ⟨rfl, rfl, rfl⟩
  · split
    · exact ⟨rfl, rfl, rfl⟩
    · split <;> exact ⟨rfl, rfl, rfl⟩

theorem filter_frame (e : Element) :
    (isPotentialCandidate e).2.styled = e.styled ∧
    (isPotentialCandidate e).2.styleDirection = e.styleDirection ∧
    (isPotentialCandidate e).2.styleTextAlign = e.styleTextAlign := by
  unfold isPotentialCandidate
  split
  · exact ⟨rfl, rfl, rfl⟩
  · split
    · exact ⟨rfl, rfl, rfl⟩
    · split
      · split
        · exact ⟨rfl, rfl, rfl⟩
        · exact tdc_frame e _
      · exact tdc_frame e none

theorem tdc_accept (e : Element) (cs : Option ComputedStyle) :
    (textAndDirectionCheck e cs).1 = true → textAndDirectionCheck e cs = (true, e) := by
  unfold textAndDirectionCheck
  split
  · intro h; simp at h
  · split
    · intro h; simp at h
    · split
      · intro h; simp at h
      · intro _; rfl

theorem filter_accept (e : Element) :
    (isPotentialCandidate e).1 = true → isPotentialCandidate e = (true, e) := by
  unfold isPotentialCandidate
  split
  · intro h; simp at h
  · split
    · intro h; simp at h
    · split
      · split
        · intro h; simp at h
        · exact tdc_accept e _
      · exact tdc_accept e none

theorem styled_rejected (e : Element) (hs : e.styled.isSome = true) :
    isPotentialCandidate e = (false, e) := by
  unfold isPotentialCandidate
  split
  · rfl
  · split
    · rfl
    · next hm => exact absurd (by simp [hs]) hm

theorem markerInv_of_styled_none (e : Element) (hs : e.styled.isSome = false) :
    markerInvB e = true := by
  simp [markerInvB, hs]

theorem tdc_markerInv (e : Element) (cs : Option ComputedStyle)
    (hs : e.styled.isSome = false) :
    markerInvB (textAndDirectionCheck e cs).2 = true := by
  have hfr := (tdc_frame e cs).1
  simp [markerInvB, hfr, hs]

theorem filter_markerInv (e : Element) (h : markerInvB e = true) :
    markerInvB (isPotentialCandidate e).2 = true := by
  unfold isPotentialCandidate
  split
  · exact h
  · split
    · exact h
    · next hm =>
      have hs : e.styled.isSome = false := by
        cases hss : e.styled.isSome
        · rfl
        · exact absurd (by simp [hss]) hm
      split
      · split
        · simp [markerInvB, hs]
        · exact tdc_markerInv e _ hs
      · exact tdc_markerInv e none hs

theorem applyRtlStyle_markerInv (e : Element) :
    markerInvB (applyRtlStyle e) = true := by
  simp [markerInvB, applyRtlStyle]

theorem revertFix_markerInv (e : Element) :
    markerInvB (revertFix e) = true := by
  simp [markerInvB, revertFix]

theorem checkAndFixElem_markerInv (e : Element) (h : markerInvB e = true) :
    markerInvB (checkAndFixElem e) = true := by
  unfold checkAndFixElem
  split
  · exact applyRtlStyle_markerInv _
  · split
    · next hc =>
      have hs : (isPotentialCandidate e).2.styled.isNone = true := by
        simpa using (Bool.and_eq_true ..).mp hc |>.2
      simp [markerInvB, Option.isNone_iff_eq_none.mp hs]
    · exact filter_markerInv e h

theorem scanStep_markerInv (e : Element) (h : markerInvB e = true) :
    markerInvB (scanStep e) = true := by
  unfold scanStep
  split
  · exact applyRtlStyle_markerInv _
  · split
    · next hc =>
      have hs : (isPotentialCandidate e).2.styled.isNone = true := by
        simpa using (Bool.and_eq_true ..).mp hc |>.2
      simp [markerInvB, Option.isNone_iff_eq_none.mp hs]
    · exact filter_markerInv e h

theorem checkAndFixNodeElem_markerInv (e : Element) (h : markerInvB e = true) :
    markerInvB (checkAndFixNodeElem e) = true := by
  unfold checkAndFixNodeElem
  split
  · exact h
  · exact checkAndFixElem_markerInv e h

theorem handleCharDataElem_markerInv (e : Element) :
    markerInvB (handleCharDataElem e) = true := by
  unfold handleCharDataElem
  exact checkAndFixNodeElem_markerInv _ (by simp [markerInvB])

mutual

theorem checkAndFixTree_markerInv : ∀ t : DomTree, treeInvB t = true →
    treeInvB (checkAndFixTree t) = true
  | .node e cs, h => by
    rw [treeInvB] at h
    obtain ⟨he, hf⟩ := (Bool.and_eq_true ..).mp h
    rw [checkAndFixTree]
    split
    · exact h
    · rw [treeInvB]
      exact (Bool.and_eq_true ..).mpr
        ⟨checkAndFixElem_markerInv e he, checkAndFixForest_markerInv cs hf⟩

theorem checkAndFixForest_markerInv : ∀ f : DomForest, forestInvB f = true →
    forestInvB (checkAndFixForest f) = true
  | .nil, _ => rfl
  | .cons t ts, h => by
    rw [forestInvB] at h
    obtain ⟨ht, hts⟩ := (Bool.and_eq_true ..).mp h
    rw [checkAndFixForest, forestInvB]
    exact (Bool.and_eq_true ..).mpr
      ⟨checkAndFixTree_markerInv t ht, checkAndFixForest_markerInv ts hts⟩

end

theorem all_map_markerInv (f : Element → Element)
    (pres : ∀ a : Element, markerInvB a = true → markerInvB (f a) = true) :
    ∀ l : List Element, l.all markerInvB = true → (l.map f).all markerInvB = true
  | [], _ => rfl
  | a :: tl, h => by
    rw [List.all_cons] at h
    obtain ⟨ha, htl⟩ := (Bool.and_eq_true ..).mp h
    rw [List.map_cons, List.all_cons]
    exact (Bool.and_eq_true ..).mpr ⟨pres a ha, all_map_markerInv f pres tl htl⟩

theorem runScan_markerInv (en : Bool) (ex : List String) (host : Option String)
    (l : List Element) (h : l.all markerInvB = true) :
    (runScan en ex host l).all markerInvB = true := by
  unfold runScan
  split
  · exact h
  · exact all_map_markerInv scanStep scanStep_markerInv l h

/-- C1: the Script Classifier (`RTL_REGEX.test`, used by
`isPotentialCandidate`) returns true iff the string contains a character whose
code point lies in the Arabic, Arabic Supplement, Arabic Extended-A or Arabic
Presentation Forms A/B blocks; on strings of only ASCII letters and digits it
returns false. -/
theorem rtl_classifier_characterization (s : String) :
    (containsRTL s = true ↔ ∃ c ∈ s.data,
      (0x0600 ≤ c.toNat ∧ c.toNat ≤ 0x06FF) ∨
      (0x0750 ≤ c.toNat ∧ c.toNat ≤ 0x077F) ∨
      (0x08A0 ≤ c.toNat ∧ c.toNat ≤ 0x08FF) ∨
      (0xFB50 ≤ c.toNat ∧ c.toNat ≤ 0xFDFF) ∨
      (0xFE70 ≤ c.toNat ∧ c.toNat ≤ 0xFEFF)) ∧
    ((∀ c ∈ s.data,
        (65 ≤ c.toNat ∧ c.toNat ≤ 90) ∨ (97 ≤ c.toNat ∧ c.toNat ≤ 122) ∨
        (48 ≤ c.toNat ∧ c.toNat ≤ 57)) →
      containsRTL s = false) := by
  have hchar : ∀ c : Char, isRTLChar c = true ↔
      ((0x0600 ≤ c.toNat ∧ c.toNat ≤ 0x06FF) ∨
       (0x0750 ≤ c.toNat ∧ c.toNat ≤ 0x077F) ∨
       (0x08A0 ≤ c.toNat ∧ c.toNat ≤ 0x08FF) ∨
       (0xFB50 ≤ c.toNat ∧ c.toNat ≤ 0xFDFF) ∨
       (0xFE70 ≤ c.toNat ∧ c.toNat ≤ 0xFEFF)) := by
    intro c
    simp [isRTLChar]
    tauto
  constructor
  · unfold containsRTL
    rw [List.any_eq_true]
    constructor
    · rintro ⟨c, hc, hrc⟩
      exact ⟨c, hc, (hchar c).mp hrc⟩
    · rintro ⟨c, hc, hp⟩
      exact ⟨c, hc, (hchar c).mpr hp⟩
  · intro hall
    unfold containsRTL
    rw [List.any_eq_false]
    intro c hc
    have hb := hall c hc
    simp [isRTLChar]
    omega

/-- Witness for C1 at concrete strings: an all-ASCII-alphanumeric string is
rejected, a Persian string is accepted. -/
theorem rtl_classifier_characterization_witness :
    containsRTL "abc123" = false ∧ containsRTL "سلام" = true :=
  ⟨(rtl_classifier_characterization "abc123").2 (by decide),
   (rtl_classifier_characterization "سلام").1.mpr ⟨'س', by decide, by decide⟩⟩

/-- C2: after `applyRtlStyle` has run once, a second pass of the fix path —
the Candidate Filter followed by the conditional style application, as done by
`checkAndFixNode` or by `runScan`'s per-candidate body — rejects on the styled
marker and leaves the element exactly as the first application left it: same
direction, same text alignment, same markers, no duplicate marker. -/
theorem fix_second_pass_noop (e : Element) :
    isPotentialCandidate (applyRtlStyle e) = (false, applyRtlStyle e) ∧
    checkAndFixNodeElem (applyRtlStyle e) = applyRtlStyle e ∧
    scanStep (applyRtlStyle e) = applyRtlStyle e := by
  have hrej := styled_rejected (applyRtlStyle e) rfl
  refine ⟨hrej, ?_, ?_⟩
  · unfold checkAndFixNodeElem
    split
    · rfl
    · unfold checkAndFixElem
      rw [hrej]
      simp [applyRtlStyle]
  · unfold scanStep
    rw [hrej]
    simp [applyRtlStyle]

/-- C3 counterexample: on an element with a pre-existing inline
`direction: ltr` override, `applyRtlStyle` followed by the revert body sets
the inline direction to the empty (unset) value, not back to the pre-fix
`"ltr"`: the round trip does not restore the pre-fix override values. -/
theorem fix_revert_not_restoring_inline :
    (revertFix (applyRtlStyle elemWithInlineLtr)).styleDirection ≠
      elemWithInlineLtr.styleDirection ∧
    (revertFix (applyRtlStyle elemWithInlineLtr)).styleTextAlign ≠
      elemWithInlineLtr.styleTextAlign := by
  exact ⟨by decide, by decide⟩

/-- C3 (amended): `applyRtlStyle` followed by the per-element body of
`revertAllStyles` always clears the inline direction/alignment overrides to
the unset value and removes both processing markers, returning the element to
the unprocessed state; it restores the exact pre-fix element whenever the
pre-fix inline overrides were unset (markers, if any, are cleared). -/
theorem fix_revert_roundtrip (e : Element)
    (hd : e.styleDirection = "") (ha : e.styleTextAlign = "") :
    (revertFix (applyRtlStyle e)).styleDirection = "" ∧
    (revertFix (applyRtlStyle e)).styleTextAlign = "" ∧
    (revertFix (applyRtlStyle e)).processed = none ∧
    (revertFix (applyRtlStyle e)).styled = none ∧
    revertFix (applyRtlStyle e) = { e with processed := none, styled := none } := by
  refine ⟨rfl, rfl, rfl, rfl, ?_⟩
  unfold revertFix applyRtlStyle
  simp [hd, ha]

/-- Witness for C3 (amended) at a concrete element with unset inline
overrides. -/
theorem fix_revert_roundtrip_witness :
    acceptedElem.styleDirection = "" ∧
    revertFix (applyRtlStyle acceptedElem) =
      { acceptedElem with processed := none, styled := none } :=
  ⟨rfl, (fix_revert_roundtrip acceptedElem rfl rfl).2.2.2.2⟩

/-- C4: marker exclusivity.  Every core operation — the Candidate Filter, the
Style Corrector, the scan body, the per-node walker body, the character-data
mutation handler, the revert body, the recursive tree walker and the
activation-guarded scan — preserves the invariant that the styled marker and
the processed (checked) marker are never present together on an element. -/
theorem marker_exclusivity (e : Element) (t : DomTree) (en : Bool)
    (ex : List String) (host : Option String) (l : List Element)
    (he : markerInvB e = true) (ht : treeInvB t = true)
    (hl : l.all markerInvB = true) :
    markerInvB (isPotentialCandidate e).2 = true ∧
    markerInvB (applyRtlStyle e) = true ∧
    markerInvB (scanStep e) = true ∧
    markerInvB (checkAndFixNodeElem e) = true ∧
    markerInvB (handleCharDataElem e) = true ∧
    markerInvB (revertFix e) = true ∧
    treeInvB (checkAndFixTree t) = true ∧
    (runScan en ex host l).all markerInvB = true :=
  ⟨filter_markerInv e he, applyRtlStyle_markerInv e, scanStep_markerInv e he,
   checkAndFixNodeElem_markerInv e he, handleCharDataElem_markerInv e,
   revertFix_markerInv e, checkAndFixTree_markerInv t ht,
   runScan_markerInv en ex host l hl⟩

/-- Witness for C4 at a concrete element, tree and candidate list. -/
theorem marker_exclusivity_witness :
    markerInvB acceptedElem = true ∧
    treeInvB (DomTree.node styledElem DomForest.nil) = true ∧
    List.all [acceptedElem] markerInvB = true ∧
    treeInvB (checkAndFixTree (DomTree.node styledElem DomForest.nil)) = true :=
  ⟨rfl, rfl, rfl,
   (marker_exclusivity acceptedElem (DomTree.node styledElem DomForest.nil) true
      [] (some "example.com") [acceptedElem] rfl rfl rfl).2.2.2.2.2.2.1⟩

/-- C5 counterexample: a character-data mutation handled on a styled element
(the `handleMutations` characterData branch, identical to the text-node entry
of `checkAndFixNode`) leaves the styled marker in place — in the latest
revision only the processed attribute is removed, so the element is not
returned to the unprocessed state. -/
theorem text_change_keeps_styled_marker :
    (handleCharDataElem styledElem).styled = some "true" ∧
    (handleCharDataElem styledElem).styled ≠ none := by
  exact ⟨by decide, by decide⟩

/-- C5 (amended): on a text-content change only the processed (checked)
marker of the parent element is removed; the styled marker survives, so a
previously styled element is rejected by the re-evaluation on that marker and
ends exactly as it was, minus the processed attribute, rather than being
re-evaluated from scratch.  Only elements without the styled marker are fully
re-checked. -/
theorem text_change_clears_processed_only (e : Element)
    (hs : e.styled.isSome = true) :
    handleCharDataElem e = { e with processed := none } ∧
    (handleCharDataElem e).styled = e.styled ∧
    (handleCharDataElem e).styleDirection = e.styleDirection := by
  have h1 : handleCharDataElem e = { e with processed := none } := by
    unfold handleCharDataElem checkAndFixNodeElem
    split
    · rfl
    · unfold checkAndFixElem
      have hrej := styled_rejected { e with processed := none } (by simpa using hs)
      rw [hrej]
      obtain ⟨v, hv⟩ := Option.isSome_iff_exists.mp hs
      simp [hv]
  exact ⟨h1, by rw [h1], by rw [h1]⟩

/-- Witness for C5 (amended) at the concrete styled element. -/
theorem text_change_clears_processed_only_witness :
    styledElem.styled.isSome = true ∧
    handleCharDataElem styledElem = { styledElem with processed := none } :=
  ⟨rfl, (text_change_clears_processed_only styledElem rfl).1⟩

/-- C6 counterexample: on a fresh element whose `getComputedStyle` throws
(`computed = none`) and whose text contains no right-to-left character, the
filter rejects but writes the `no-rtl` marker, not `style-error`: a failing
style read during the visibility check does not by itself produce the
`style-error` marker. -/
theorem style_failure_marks_no_rtl :
    (isPotentialCandidate throwingStyleElem).1 = false ∧
    (isPotentialCandidate throwingStyleElem).2.processed = some "no-rtl" ∧
    (isPotentialCandidate throwingStyleElem).2.processed ≠ some "style-error" := by
  exact ⟨rfl, rfl, by decide⟩

/-- C6 (amended): when `getComputedStyle` throws on a fresh element that
passes the structural checks, the filter always rejects; the element is
marked `style-error` exactly when its text contains a right-to-left character
(so that the failing direction read is reached), and `no-rtl` otherwise.  In
either case the marker blocks re-examination until the text-change path
removes it. -/
theorem style_read_failure_conservative (e : Element)
    (h1 : e.isElementNode = true) (h2 : e.matchesSkip = false)
    (h3 : e.isConnected = true) (h4 : e.processed = none) (h5 : e.styled = none)
    (h6 : e.computed = none) :
    (isPotentialCandidate e).1 = false ∧
    (containsRTL e.textContent = true →
      (isPotentialCandidate e).2.processed = some "style-error") ∧
    (containsRTL e.textContent = false →
      (isPotentialCandidate e).2.processed = some "no-rtl") := by
  have hfilter : isPotentialCandidate e = textAndDirectionCheck e none := by
    unfold isPotentialCandidate
    simp [h1, h2, h3, h4, h5, h6]
  have htdc : textAndDirectionCheck e none =
      if e.textContent = "" || !containsRTL e.textContent then
        (false, { e with processed := some "no-rtl" })
      else (false, { e with processed := some "style-error" }) := by
    unfold textAndDirectionCheck readDirection
    rw [h6]
    rfl
  refine ⟨?_, ?_, ?_⟩
  · rw [hfilter, htdc]
    split <;> rfl
  · intro hc
    rw [hfilter, htdc]
    have hne : ¬ e.textContent = "" := by
      intro h0
      rw [h0] at hc
      exact absurd hc (by decide)
    simp [hne, hc]
  · intro hc
    rw [hfilter, htdc]
    simp [hc]

/-- A fresh element with a throwing `getComputedStyle` and Persian text. -/
def throwingStyleElemRTL : Element :=
  { throwingStyleElem with textContent := "سلام" }

/-- Witness for C6 (amended): with right-to-left text the failing direction
read yields the `style-error` marker. -/
theorem style_read_failure_conservative_witness :
    containsRTL throwingStyleElemRTL.textContent = true ∧
    (isPotentialCandidate throwingStyleElemRTL).2.processed = some "style-error" :=
  ⟨by decide,
   (style_read_failure_conservative throwingStyleElemRTL rfl rfl rfl rfl rfl rfl).2.1
     (by decide)⟩

/-- The content-script state right before an update that removes the current
hostname from the exclusion list while the observer is running. -/
def preUpdateState : ContentState :=
  { isEnabled := true, excludedSites := ["x.com"], currentHostname := some "x.com",
    observerActive := true }

/-- C7 counterexample: in the latest revision, an `updateState` message whose
exclusion list drops the current hostname, arriving while the observer is
active and leaving the recheck at "should be active", produces no action at
all — no revert and no rescan. -/
theorem exclusion_removal_no_action :
    (applyUpdate preUpdateState { isEnabled := none, excludedSites := some [] } true).2 = [] ∧
    FxAction.revertAll ∉
      (applyUpdate preUpdateState { isEnabled := none, excludedSites := some [] } true).2 ∧
    FxAction.runScan ∉
      (applyUpdate preUpdateState { isEnabled := none, excludedSites := some [] } true).2 := by
  exact ⟨rfl, by decide, by decide⟩

/-- C7 (amended): when a settings update changes the exclusion list to one
not containing the current hostname while the handler finds the page still
active (observer already running), the latest revision takes no action; the
forced revert-then-rescan exists only in the earliest revision, which fires
it in that branch whenever the payload's exclusion list omits the current
hostname. -/
theorem exclusion_removal_behavior (s : ContentState) (l : List String)
    (hn : String) (h1 : s.isEnabled = true) (h2 : s.currentHostname = some hn)
    (h3 : s.observerActive = true) (h4 : s.excludedSites ≠ l)
    (h5 : l.contains hn = false) :
    (applyUpdate s { isEnabled := none, excludedSites := some l } true).2 = [] ∧
    (applyUpdateV0 s { isEnabled := none, excludedSites := some l }).2 =
      [FxAction.revertAll, FxAction.runScan, FxAction.startObserver] := by
  have h5m : hn ∉ l := by simpa using h5
  constructor
  · unfold applyUpdate shouldBeActive
    simp [h1, h2, h3, h4, h5m]
  · unfold applyUpdateV0 shouldBeActiveV0
    simp [h1, h2, h3, h4, h5m]

/-- Witness for C7 (amended) at the concrete pre-update state. -/
theorem exclusion_removal_behavior_witness :
    preUpdateState.excludedSites ≠ ([] : List String) ∧
    (applyUpdateV0 preUpdateState { isEnabled := none, excludedSites := some [] }).2 =
      [FxAction.revertAll, FxAction.runScan, FxAction.startObserver] :=
  ⟨by decide,
   (exclusion_removal_behavior preUpdateState [] "x.com" rfl rfl rfl (by decide) rfl).2⟩

/-- C8: if every settings attempt fails or is malformed, the bounded retry
loop (five attempts, exponential backoff 200·4^(attempt-1) ms between
attempts) returns null, and initialization ends in the fail-safe inactive
state: `isEnabled = false`, no scan is scheduled or run, no observer is
started (only `stopObserver` runs).  The embedding is a total function, so no
exception propagates out of the modelled initialization, and no scan or
styling action is emitted before a successful settings response. -/
theorem settings_failure_fail_safe (responses : Nat → Option RawSettings)
    (host : Option String) (h : ∀ n, validSettings (responses n) = false) :
    getSettingsWithRetry responses = (none, [200, 800, 3200, 12800]) ∧
    initializeContent responses host =
      { isEnabled := false, excludedSites := [], actions := [FxAction.stopObserver] } ∧
    FxAction.runScan ∉ (initializeContent responses host).actions ∧
    FxAction.scheduleInitialScan ∉ (initializeContent responses host).actions ∧
    FxAction.scheduleSecondScan ∉ (initializeContent responses host).actions ∧
    FxAction.startObserver ∉ (initializeContent responses host).actions := by
  have hret : getSettingsWithRetry responses = (none, [200, 800, 3200, 12800]) := by
    simp [getSettingsWithRetry, getSettingsFrom, h]
  have hinit : initializeContent responses host =
      { isEnabled := false, excludedSites := [], actions := [FxAction.stopObserver] } := by
    unfold initializeContent
    rw [hret]
  refine ⟨hret, hinit, ?_, ?_, ?_, ?_⟩ <;> rw [hinit] <;> decide

/-- Witness for C8: every attempt returns a thrown-error response. -/
theorem settings_failure_fail_safe_witness :
    (∀ n : Nat, validSettings ((fun _ => (none : Option RawSettings)) n) = false) ∧
    initializeContent (fun _ => none) (some "example.com") =
      { isEnabled := false, excludedSites := [], actions := [FxAction.stopObserver] } :=
  ⟨fun _ => rfl,
   (settings_failure_fail_safe (fun _ => none) (some "example.com") (fun _ => rfl)).2.1⟩

theorem startLoop_stuck (bodyAt : Nat → Bool) (os : Bool)
    (hb : ∀ k, bodyAt k = false) :
    ∀ n, startLoop true false bodyAt os n = (StartOutcome.retryScheduled, false)
  | 0 => by simp [startLoop, startObserverStep, hb 0]
  | n + 1 => by
    have ih := startLoop_stuck bodyAt os hb n
    simp [startLoop, ih, startObserverStep, hb (n + 1)]

/-- C9 counterexample: with the script enabled, the site not excluded and no
observer yet, if `document.body` never becomes available the `startObserver`
retry chain never terminates: every invocation schedules another retry, for
all n. -/
theorem observer_retry_never_terminates :
    ¬ ∃ n : Nat,
      (startLoop true false (fun _ => false) true n).1 ≠ StartOutcome.retryScheduled := by
  rintro ⟨n, hn⟩
  exact hn (by rw [startLoop_stuck (fun _ => false) true (fun _ => rfl) n])

/-- C9 (amended): the body-wait retry of `startObserver` is unbounded, not
bounded: while the script stays enabled and unexcluded with no observer and
the body never appears, every invocation reschedules itself (the chain never
reaches a non-retry outcome); the chain stops only when the guard
short-circuits — observer already present, script disabled, or site
excluded — or the body appears. -/
theorem observer_retry_unbounded (bodyAt : Nat → Bool) (os : Bool) (n : Nat)
    (hb : ∀ k, bodyAt k = false) :
    (startLoop true false bodyAt os n).1 = StartOutcome.retryScheduled ∧
    (startLoop true false bodyAt os n).2 = false ∧
    (∀ obs en exc body osb : Bool, (obs = true ∨ en = false ∨ exc = true) →
      (startObserverStep obs en exc body osb).1 = StartOutcome.noop) := by
  refine ⟨by rw [startLoop_stuck bodyAt os hb n], by rw [startLoop_stuck bodyAt os hb n], ?_⟩
  rintro obs en exc body osb (h | h | h) <;> simp [startObserverStep, h]

/-- Witness for C9 (amended): body never available, third invocation still
retries. -/
theorem observer_retry_unbounded_witness :
    (∀ k : Nat, (fun _ => false : Nat → Bool) k = false) ∧
    (startLoop true false (fun _ => false) true 3).1 = StartOutcome.retryScheduled :=
  ⟨fun _ => rfl, (observer_retry_unbounded (fun _ => false) true 3 (fun _ => rfl)).1⟩

/-- C10: an accepting run of the Candidate Filter is pure: when
`isPotentialCandidate` returns true the element is completely unmodified (so
a second call on the unchanged element returns true again), and on every
element — accepted or rejected — the filter never touches the inline styles or
the styled marker: the only field it can write is the processed marker, and
only on a rejecting branch. -/
theorem filter_accept_no_writes (e : Element)
    (h : (isPotentialCandidate e).1 = true) :
    (isPotentialCandidate e).2 = e ∧
    (isPotentialCandidate ((isPotentialCandidate e).2)).1 = true ∧
    (∀ x : Element, (isPotentialCandidate x).2.styled = x.styled ∧
      (isPotentialCandidate x).2.styleDirection = x.styleDirection ∧
      (isPotentialCandidate x).2.styleTextAlign = x.styleTextAlign) := by
  have ha := filter_accept e h
  refine ⟨by rw [ha], ?_, filter_frame⟩
  rw [ha]
  exact h

/-- Witness for C10 at a concrete accepted element. -/
theorem filter_accept_no_writes_witness :
    (isPotentialCandidate acceptedElem).1 = true ∧
    (isPotentialCandidate acceptedElem).2 = acceptedElem :=
  ⟨by decide, (filter_accept_no_writes acceptedElem (by decide)).1⟩
